import Mathlib

/-!
Verification development for the MongoDB backup manager
(src/backend/backup_manager.py of imanaswer/GOLDERP).

The program is a thin sequential wrapper over an external dump command,
filesystem archive calls and directory listing.  We give a shallow
embedding:

  * the backup directory is a list of entries (name, byte size, directory
    flag);
  * timezone-aware UTC datetimes are represented by a record of calendar
    fields; comparison and timedelta arithmetic on aware datetimes are
    represented through their count of seconds since the Unix epoch
    (aware UTC datetimes are order-isomorphic to their epoch seconds);
  * the outcomes of the effectful steps inside create_backup (the
    mongodump subprocess, shutil.make_archive, shutil.rmtree, stat) are
    supplied by an environment record, and the function is total,
    returning the result record, the final directory state and a trace
    of the effects it performed;
  * Python floats are modelled as exact rationals: round(bytes/2^20, 2)
    is represented by the integer of hundredths of a megabyte, rounded
    to nearest with ties to even;
  * datetime.strptime with format %Y%m%d_%H%M%S is modelled after
    the CPython module _strptime: the format compiles to the regular expression
    Y=dddd, m=(1[0-2]|0[1-9]|[1-9]), d=(3[01]|[12]D|0[1-9]|[1-9]), a
    literal underscore, H=(2[0-3]|[0-1]D|D), M=([0-5]D|D),
    S=(6[0-1]|[0-5]D|D) where D is any digit; the first match in
    alternation-preference order is committed, the whole string must be
    consumed, and the datetime constructor then validates the fields.
-/

namespace GOLDERP

/-! ## Characters, digits, fixed-width decimal rendering -/

/-- Decimal digit test (the regex class D used by strptime). -/
def isDig (c : Char) : Bool := '0' ≤ c && c ≤ '9'

/-- Numeric value of a decimal digit character. -/
def digitVal (c : Char) : Nat := c.toNat - 48

/-- The decimal digit character for a value below ten. -/
def digitChar (n : Nat) : Char := Char.ofNat (48 + n)

/-- Two-digit zero-padded rendering, as strftime %m %d %H %M %S produce
for their (two-digit-bounded) field values. -/
def pad2 (n : Nat) : List Char := [digitChar (n / 10 % 10), digitChar (n % 10)]

/-- Four-digit zero-padded rendering, as strftime %Y produces for years
up to 9999 (datetime years never exceed 9999). -/
def pad4 (n : Nat) : List Char :=
  [digitChar (n / 1000 % 10), digitChar (n / 100 % 10),
   digitChar (n / 10 % 10), digitChar (n % 10)]

/-! ## Datetimes -/

/-- Calendar fields of a timezone-aware UTC datetime. -/
structure DT where
  year : Nat
  month : Nat
  day : Nat
  hour : Nat
  minute : Nat
  second : Nat
deriving DecidableEq

/-- Proleptic-Gregorian leap-year test, as in Python calendar/datetime. -/
def isLeapYear (y : Nat) : Bool := y % 4 == 0 && (y % 100 != 0 || y % 400 == 0)

/-- Days in a month (month numbered from one), as in Python datetime. -/
def daysInMonth (y m : Nat) : Nat :=
  if m = 2 then (if isLeapYear y then 29 else 28)
  else if m = 4 ∨ m = 6 ∨ m = 9 ∨ m = 11 then 30
  else 31

/-- The validity test performed by the datetime constructor (MINYEAR is
one, MAXYEAR is 9999), reached after strptime regex matching. -/
def DT.valid (t : DT) : Prop :=
  1 ≤ t.year ∧ t.year ≤ 9999 ∧ 1 ≤ t.month ∧ t.month ≤ 12 ∧
  1 ≤ t.day ∧ t.day ≤ daysInMonth t.year t.month ∧
  t.hour ≤ 23 ∧ t.minute ≤ 59 ∧ t.second ≤ 59

instance (t : DT) : Decidable t.valid := by
  unfold DT.valid; infer_instance

/-- Days in all full years before year y (Python _ymd2ord helper). -/
def daysBeforeYear (y : Nat) : Nat :=
  let a := y - 1
  a * 365 + a / 4 + a / 400 - a / 100

/-- Days in all full months of year y before month m (month from one). -/
def daysBeforeMonth (y : Nat) : Nat → Nat
  | 0 => 0
  | 1 => 0
  | n + 2 => daysBeforeMonth y (n + 1) + daysInMonth y (n + 1)

/-- Proleptic-Gregorian ordinal of a date, day one being 0001-01-01, as
Python datetime.toordinal computes it. -/
def toOrdinal (t : DT) : Nat :=
  daysBeforeYear t.year + daysBeforeMonth t.year t.month + t.day

/-- Seconds since the Unix epoch of an aware UTC datetime; 719163 is the
ordinal of 1970-01-01.  Aware datetime comparison and day-granularity
timedelta arithmetic are represented through this value. -/
def epochSeconds (t : DT) : Int :=
  ((toOrdinal t : Int) - 719163) * 86400
    + t.hour * 3600 + t.minute * 60 + t.second

/-- strftime %Y%m%d_%H%M%S: the timestamp embedded in backup names. -/
def fmtTimestamp (t : DT) : String :=
  ⟨pad4 t.year ++ pad2 t.month ++ pad2 t.day ++ ['_'] ++
   pad2 t.hour ++ pad2 t.minute ++ pad2 t.second⟩

/-! ## strptime for the fixed format %Y%m%d_%H%M%S

Each field function returns the candidate (value, rest) pairs in the
alternation order of the CPython _strptime regular expression; the
candidates of the whole format are chained in order, so the head of the
resulting list is exactly the match the backtracking regex engine
commits to. -/

/-- Regex fragment for %Y: exactly four digits. -/
def yearCand : List Char → List (Nat × List Char)
  | a :: b :: c :: d :: rest =>
    if isDig a && isDig b && isDig c && isDig d then
      [(digitVal a * 1000 + digitVal b * 100 + digitVal c * 10 + digitVal d, rest)]
    else []
  | _ => []

/-- Regex fragment for %m: 1[0-2] or 0[1-9] or [1-9]. -/
def monthCand : List Char → List (Nat × List Char)
  | [] => []
  | a :: rest =>
    (match rest with
     | b :: rest2 =>
       (if a = '1' && ('0' ≤ b && b ≤ '2') then [(10 + digitVal b, rest2)] else []) ++
       (if a = '0' && ('1' ≤ b && b ≤ '9') then [(digitVal b, rest2)] else [])
     | [] => []) ++
    (if '1' ≤ a && a ≤ '9' then [(digitVal a, rest)] else [])

/-- Regex fragment for %d: 3[01] or [12]D or 0[1-9] or [1-9]. -/
def dayCand : List Char → List (Nat × List Char)
  | [] => []
  | a :: rest =>
    (match rest with
     | b :: rest2 =>
       (if a = '3' && (b = '0' || b = '1') then [(30 + digitVal b, rest2)] else []) ++
       (if (a = '1' || a = '2') && isDig b then [(digitVal a * 10 + digitVal b, rest2)] else []) ++
       (if a = '0' && ('1' ≤ b && b ≤ '9') then [(digitVal b, rest2)] else [])
     | [] => []) ++
    (if '1' ≤ a && a ≤ '9' then [(digitVal a, rest)] else [])

/-- Regex fragment for %H: 2[0-3] or [0-1]D or D. -/
def hourCand : List Char → List (Nat × List Char)
  | [] => []
  | a :: rest =>
    (match rest with
     | b :: rest2 =>
       (if a = '2' && ('0' ≤ b && b ≤ '3') then [(20 + digitVal b, rest2)] else []) ++
       (if (a = '0' || a = '1') && isDig b then [(digitVal a * 10 + digitVal b, rest2)] else [])
     | [] => []) ++
    (if isDig a then [(digitVal a, rest)] else [])

/-- Regex fragment for %M: [0-5]D or D. -/
def minuteCand : List Char → List (Nat × List Char)
  | [] => []
  | a :: rest =>
    (match rest with
     | b :: rest2 =>
       if ('0' ≤ a && a ≤ '5') && isDig b then [(digitVal a * 10 + digitVal b, rest2)] else []
     | [] => []) ++
    (if isDig a then [(digitVal a, rest)] else [])

/-- Regex fragment for %S: 6[0-1] or [0-5]D or D (strptime admits leap
seconds; the datetime constructor rejects them afterwards). -/
def secondCand : List Char → List (Nat × List Char)
  | [] => []
  | a :: rest =>
    (match rest with
     | b :: rest2 =>
       (if a = '6' && (b = '0' || b = '1') then [(60 + digitVal b, rest2)] else []) ++
       (if ('0' ≤ a && a ≤ '5') && isDig b then [(digitVal a * 10 + digitVal b, rest2)] else [])
     | [] => []) ++
    (if isDig a then [(digitVal a, rest)] else [])

/-- The literal underscore of the format. -/
def underscoreCand : List Char → List (List Char)
  | '_' :: rest => [rest]
  | _ => []

/-- All regex matches of the compiled format against a prefix of the
input, in alternation-preference order; the head is the committed match. -/
def tsRegexMatches (s : List Char) : List (DT × List Char) :=
  (yearCand s).flatMap fun ys =>
  (monthCand ys.2).flatMap fun ms =>
  (dayCand ms.2).flatMap fun ds =>
  (underscoreCand ds.2).flatMap fun r4 =>
  (hourCand r4).flatMap fun hs =>
  (minuteCand hs.2).flatMap fun mins =>
  (secondCand mins.2).map fun ss =>
    (⟨ys.1, ms.1, ds.1, hs.1, mins.1, ss.1⟩, ss.2)

/-- datetime.strptime(s, the fixed format): commit to the first regex
match, require the whole string consumed (otherwise unconverted data
remains), then let the datetime constructor validate the fields.  The
result is none exactly when strptime raises ValueError. -/
def strptimeTS (s : String) : Option DT :=
  match (tsRegexMatches s.data).head? with
  | some (dt, rest) =>
    if rest.isEmpty then (if dt.valid then some dt else none) else none
  | none => none

/-! ## Python string helpers used by the manager -/

/-- Python str.replace, on a fuel bounded by the input length: each
step consumes at least one character of the input, so fuel equal to the
length makes the exhaustion case unreachable (the fuel only makes the
recursion structural). -/
def replaceAllAux (pat rep : List Char) : Nat → List Char → List Char
  | _, [] => []
  | 0, s => s
  | Nat.succ n, c :: rest =>
    if pat.isPrefixOf (c :: rest) && !pat.isEmpty then
      rep ++ replaceAllAux pat rep n (rest.drop (pat.length - 1))
    else
      c :: replaceAllAux pat rep n rest

/-- Python str.replace: replace every non-overlapping occurrence of the
pattern, scanning left to right.  Our call sites always pass a nonempty
pattern; an empty pattern is returned unchanged. -/
def replaceAll (pat rep s : List Char) : List Char :=
  replaceAllAux pat rep s.length s

/-- The timestamp text extracted from a backup file name:
name.replace(the backup marker, empty).replace(the archive suffix, empty). -/
def tsExtract (n : String) : String :=
  ⟨replaceAll ".tar.gz".data [] (replaceAll "backup_".data [] n.data)⟩

/-- fnmatch of the glob pattern used for backup archives: the name
starts with the backup marker, ends with the archive suffix, and is long
enough that the two do not overlap. -/
def backupGlobMatch (n : String) : Bool :=
  "backup_".data.isPrefixOf n.data && ".tar.gz".data.isSuffixOf n.data &&
  decide (14 ≤ n.length)

/-! ## Sizes: round(bytes / 2^20, 2) in hundredths of a megabyte -/

/-- Round the quotient n / d to the nearest integer, ties to even, the
rounding mode of the Python built-in round. -/
def roundHalfEven (n d : Nat) : Nat :=
  let q := n / d
  let r := n % d
  if 2 * r < d then q
  else if d < 2 * r then q + 1
  else if q % 2 = 0 then q else q + 1

/-- round(bytes / (1024*1024), 2), represented exactly in hundredths of
a megabyte (the float quotient modelled as an exact rational). -/
def sizeCentiMB (bytes : Nat) : Nat := roundHalfEven (bytes * 100) 1048576

/-! ## The backup directory and the manager operations -/

/-- One entry of the backup directory: name, byte size, directory flag.
The temporary dump output is a directory; archives are plain files. -/
structure Entry where
  name : String
  size : Nat
  isDir : Bool
deriving DecidableEq

/-- Observable filesystem and control effects of the manager, recorded
as a trace. -/
inductive Ev
  | dumpRun
  | archiveCreated (name : String)
  | removedDumpDir (name : String)
  | cleanupRun
  | deletedOld (name : String)
deriving DecidableEq

/-- Outcome of one cleanup pass: remaining directory entries and the
deletion events logged. -/
structure CleanupOut where
  fs : List Entry
  evs : List Ev
deriving DecidableEq

/-- Whether the cleanup loop body deletes a given entry: the name is in
the glob, the extracted timestamp parses, the parsed datetime is
strictly before the cutoff (now minus the retention), and the unlink
call itself does not raise (it raises on a directory, and the per-file
handler swallows that). -/
def deletesEntry (now R : Int) (e : Entry) : Bool :=
  backupGlobMatch e.name &&
  (match strptimeTS (tsExtract e.name) with
   | some dt => decide (epochSeconds dt < now - R * 86400) && !e.isDir
   | none => false)

/-- BackupManager.cleanup_old_backups: for every entry matching the
glob, parse the embedded timestamp and unlink the file when it is
strictly older than the cutoff; any per-entry exception (parse failure,
unlink failure) is swallowed and the loop continues. -/
def cleanup_old_backups (now R : Int) : List Entry → CleanupOut
  | [] => ⟨[], []⟩
  | e :: rest =>
    let o := cleanup_old_backups now R rest
    if deletesEntry now R e then ⟨o.fs, Ev.deletedOld e.name :: o.evs⟩
    else ⟨e :: o.fs, o.evs⟩

/-- The record returned by create_backup: the success shape carries the
archive file name and its size in hundredths of a megabyte; the failure
shape carries str of the caught exception. -/
inductive BackupResult
  | success (file : String) (size_mb_centi : Nat)
  | failure (error : String)
deriving DecidableEq

/-- Outcome of the subprocess.run call on mongodump: either
TimeoutExpired was raised (with its message) or the process completed
with an exit status and captured standard error. -/
inductive RunResult
  | timeout (msg : String)
  | completed (returncode : Int) (stderr : String)
deriving DecidableEq

/-- Environment oracle for one create_backup call: outcomes of the
effectful steps, whether mongodump left its output directory behind,
and the clock value the nested cleanup pass observes. -/
structure CBEnv where
  dump : RunResult
  dumpDirCreated : Bool
  archive : Except String Nat
  rmtreeOk : Except String Unit
  statOk : Except String Unit
  cleanupNow : Int

/-- Everything one create_backup call yields: the returned record, the
final state of the backup directory, and the effect trace. -/
structure CBOut where
  result : BackupResult
  fs : List Entry
  trace : List Ev
deriving DecidableEq

/-- The name of the temporary dump directory for a given call time. -/
def backupBaseName (t : DT) : String := "backup_" ++ fmtTimestamp t

/-- The name of the archive for a given call time. -/
def backupArchiveName (t : DT) : String := backupBaseName t ++ ".tar.gz"

/-- BackupManager.create_backup: format the timestamp, run mongodump
(bounded by the fixed timeout), raise on a non-zero exit status with the
captured stderr as message, compress the dump directory into the
archive, remove the dump directory, stat the archive for its size,
run cleanup_old_backups, and return the success record; every exception
raised inside the try block is caught and converted to the failure
record. -/
def create_backup (R : Int) (now : DT) (env : CBEnv) (fs : List Entry) : CBOut :=
  let name := backupBaseName now
  let archiveName := backupArchiveName now
  match env.dump with
  | RunResult.timeout msg =>
    let fs1 := if env.dumpDirCreated then ⟨name, 0, true⟩ :: fs else fs
    ⟨BackupResult.failure msg, fs1, [Ev.dumpRun]⟩
  | RunResult.completed rc stderr =>
    let fs1 := if env.dumpDirCreated then ⟨name, 0, true⟩ :: fs else fs
    if rc ≠ 0 then ⟨BackupResult.failure stderr, fs1, [Ev.dumpRun]⟩
    else
      match env.archive with
      | Except.error msg => ⟨BackupResult.failure msg, fs1, [Ev.dumpRun]⟩
      | Except.ok bytes =>
        let fs2 : List Entry := ⟨archiveName, bytes, false⟩ :: fs1
        match env.rmtreeOk with
        | Except.error msg =>
          ⟨BackupResult.failure msg, fs2, [Ev.dumpRun, Ev.archiveCreated archiveName]⟩
        | Except.ok _ =>
          let fs3 := fs2.filter (fun x => x.name != name)
          match env.statOk with
          | Except.error msg =>
            ⟨BackupResult.failure msg, fs3,
             [Ev.dumpRun, Ev.archiveCreated archiveName, Ev.removedDumpDir name]⟩
          | Except.ok _ =>
            let o := cleanup_old_backups env.cleanupNow R fs3
            ⟨BackupResult.success archiveName (sizeCentiMB bytes), o.fs,
             [Ev.dumpRun, Ev.archiveCreated archiveName, Ev.removedDumpDir name,
              Ev.cleanupRun] ++ o.evs⟩

/-- One element of the sequence returned by list_backups. -/
structure BackupInfo where
  file : String
  size_mb_centi : Nat
deriving DecidableEq

/-- The record list_backups builds for one archive. -/
def lbRecord (e : Entry) : BackupInfo := ⟨e.name, sizeCentiMB e.size⟩

/-- BackupManager.list_backups: the entries matching the glob, sorted by
name in descending order (sorted with reverse true is a stable sort, so
an earlier entry precedes a later one of equal name), each rendered as a
record of name and rounded size. -/
def list_backups (fs : List Entry) : List BackupInfo :=
  ((fs.filter (fun e => backupGlobMatch e.name)).insertionSort
      (fun a b => b.name ≤ a.name)).map lbRecord

/-- Shape of a well-formed embedded timestamp: eight decimal digits, an
underscore, six decimal digits — the 14-digit pattern
backup_YYYYMMDD_HHMMSS.tar.gz of the spec refers to these 14 digits. -/
def timestampShape (ts : List Char) : Bool :=
  ts.length == 15 && (ts.take 8).all isDig &&
  (match ts.drop 8 with
   | '_' :: rest => rest.all isDig
   | _ => false)

/-- An archive name built from a timestamp text, as the manager builds
its file names. -/
def mkBackupName (t : String) : String := "backup_" ++ t ++ ".tar.gz"

/-! ## Module-level startup: environment, configuration, directories

The module body runs load_dotenv first, so the environment below is the
effective one the os.getenv calls observe (process environment possibly
augmented from the dotenv file).  It then computes RETENTION_DAYS with
the Python int conversion, reads MONGO_URL and DB_NAME, raises when
either is missing or empty, and only then creates the backup and log
directories. -/

/-- Python whitespace stripped by int() around the literal (the ASCII
subset, which covers the values the claims concern). -/
def isPySpace (c : Char) : Bool :=
  c = ' ' || c = '\t' || c = '\n' || c = '\x0d' || c = '\x0b' || c = '\x0c'

/-- Digits of a base-ten int literal after the sign: digit groups with
single underscores strictly between digits, consuming the whole rest. -/
def pyDigits : List Char → Nat → Option Nat
  | [], acc => some acc
  | '_' :: c :: rest, acc =>
    if isDig c then pyDigits rest (acc * 10 + digitVal c) else none
  | ['_'], _ => none
  | c :: rest, acc =>
    if isDig c then pyDigits rest (acc * 10 + digitVal c) else none

/-- The Python built-in int applied to a string (base ten): strip
whitespace, one optional sign, then digits with optional single
underscores between them; none exactly when int() raises ValueError. -/
def pyIntOfString (s : String) : Option Int :=
  let l := ((s.data.dropWhile isPySpace).reverse.dropWhile isPySpace).reverse
  match l with
  | '+' :: c :: rest =>
    if isDig c then (pyDigits rest (digitVal c)).map Int.ofNat else none
  | '-' :: c :: rest =>
    if isDig c then (pyDigits rest (digitVal c)).map (fun n => -(n : Int)) else none
  | c :: rest =>
    if isDig c then (pyDigits rest (digitVal c)).map Int.ofNat else none
  | [] => none

/-- The process-wide configuration the module computes when startup
succeeds. -/
structure Config where
  retentionDays : Int
  mongoUrl : String
  dbName : String
deriving DecidableEq

/-- Outcome of running the module body: an uncaught fatal exception, or
a usable configuration. -/
inductive StartupOutcome
  | fatal (msg : String)
  | ok (cfg : Config)
deriving DecidableEq

/-- Directory side effects of the module body. -/
inductive StEv
  | mkdirBackups
  | mkdirLogs
deriving DecidableEq

/-- os.getenv over the effective environment (an association list). -/
def getenv (env : List (String × String)) (k : String) : Option String :=
  (env.find? (fun p => p.1 == k)).map (fun p => p.2)

/-- Python truthiness test used by the required-variable check: None and
the empty string are falsy. -/
def isFalsyStrOpt : Option String → Bool
  | none => true
  | some s => s.isEmpty

/-- The module body after RETENTION_DAYS has been computed: read the
required variables, raise RuntimeError when either is missing or empty
(before any directory is created), otherwise create the backup and log
directories and yield the configuration. -/
def startupWithRetention (env : List (String × String)) (r : Int) :
    StartupOutcome × List StEv :=
  let mongo := getenv env "MONGO_URL"
  let db := getenv env "DB_NAME"
  if isFalsyStrOpt mongo || isFalsyStrOpt db then
    (StartupOutcome.fatal "Missing required env vars: MONGO_URL or DB_NAME", [])
  else
    (StartupOutcome.ok ⟨r, mongo.getD "", db.getD ""⟩,
     [StEv.mkdirBackups, StEv.mkdirLogs])

/-- The module body: RETENTION_DAYS is int of the optional variable
(int applied to the integer default 7 when unset, which is 7); a
conversion failure is an uncaught ValueError that aborts startup before
anything else runs. -/
def startup (env : List (String × String)) : StartupOutcome × List StEv :=
  match getenv env "BACKUP_RETENTION_DAYS" with
  | some s =>
    match pyIntOfString s with
    | none =>
      (StartupOutcome.fatal
        ("invalid literal for int() with base 10: " ++ s), [])
    | some r => startupWithRetention env r
  | none => startupWithRetention env 7

/-- The descending-name order list_backups sorts by is total. -/
instance : IsTotal Entry (fun a b => b.name ≤ a.name) :=
  ⟨fun a b => le_total b.name a.name⟩

/-- The descending-name order list_backups sorts by is transitive. -/
instance : IsTrans Entry (fun a b => b.name ≤ a.name) :=
  ⟨fun _ _ _ hab hbc => le_trans hbc hab⟩

/-! ## Helper lemmas -/

/-- The cleanup loop keeps exactly the entries its body does not delete. -/
theorem cleanup_fs_eq_filter (now R : Int) (fs : List Entry) :
    (cleanup_old_backups now R fs).fs
      = fs.filter (fun e => !(deletesEntry now R e)) := by
  induction fs with
  | nil => rfl
  | cons e rest ih =>
    cases hd : deletesEntry now R e <;>
      simp [cleanup_old_backups, hd, ih, List.filter_cons]

/-- The dump directory name and the archive name of one call differ. -/
theorem baseName_ne_archiveName (t : DT) :
    backupBaseName t ≠ backupArchiveName t := by
  intro h
  have hl := congrArg String.length h
  rw [backupArchiveName, String.length_append] at hl
  have h7 : (".tar.gz" : String).length = 7 := rfl
  omega

/-- Characters produced by the zero-padded renderings are digits. -/
theorem isDig_digitChar_mod (k : Nat) : isDig (digitChar (k % 10)) = true := by
  have h : k % 10 < 10 := Nat.mod_lt _ (by norm_num)
  generalize k % 10 = r at h ⊢
  interval_cases r <;> decide

/-- Lexicographic order is preserved by prepending a common list. -/
theorem lex_append_left {r : Char → Char → Prop} (p : List Char)
    {u v : List Char} (h : List.Lex r u v) :
    List.Lex r (p ++ u) (p ++ v) := by
  induction p with
  | nil => simpa using h
  | cons c cs ih => exact List.Lex.cons ih

/-- Lexicographic order between equal-length lists is preserved by
appending a common list. -/
theorem lex_append_right {r : Char → Char → Prop} (s : List Char)
    {u v : List Char} (h : List.Lex r u v) :
    u.length = v.length → List.Lex r (u ++ s) (v ++ s) := by
  induction h with
  | nil => intro hlen; simp at hlen
  | cons h ih => intro hlen; exact List.Lex.cons (ih (by simpa using hlen))
  | rel hr => intro _; exact List.Lex.rel hr

/-- Name order of archives follows timestamp order for equal-length
timestamp texts (the fixed-width format makes the two coincide). -/
theorem mkBackupName_lt_of_lt {t u : String} (hlen : t.length = u.length)
    (h : t < u) : mkBackupName t < mkBackupName u := by
  rw [String.lt_iff_toList_lt] at h ⊢
  have h2 : List.Lex (fun a b : Char => a < b) t.data u.data := h
  have hdt : (mkBackupName t).toList
      = "backup_".data ++ (t.data ++ ".tar.gz".data) := by
    simp [mkBackupName, String.toList, String.data_append]
  have hdu : (mkBackupName u).toList
      = "backup_".data ++ (u.data ++ ".tar.gz".data) := by
    simp [mkBackupName, String.toList, String.data_append]
  show List.Lex (fun a b : Char => a < b) (mkBackupName t).toList
      (mkBackupName u).toList
  rw [hdt, hdu]
  have hlen2 : t.data.length = u.data.length := hlen
  exact lex_append_left _ (lex_append_right _ h2 hlen2)

/-- Names built from 15-character timestamp texts are in the glob. -/
theorem globMatch_mkBackupName (t : String) (hlen : t.length = 15) :
    backupGlobMatch (mkBackupName t) = true := by
  have hdata : (mkBackupName t).data
      = "backup_".data ++ (t.data ++ ".tar.gz".data) := by
    simp [mkBackupName, String.data_append]
  have hlen2 : (mkBackupName t).length = 29 := by
    rw [mkBackupName, String.length_append, String.length_append, hlen]
    decide
  have h1 : "backup_".data.isPrefixOf
      ("backup_".data ++ (t.data ++ ".tar.gz".data)) = true :=
    List.isPrefixOf_iff_prefix.mpr (List.prefix_append _ _)
  have h2 : ".tar.gz".data.isSuffixOf
      ("backup_".data ++ (t.data ++ ".tar.gz".data)) = true :=
    List.isSuffixOf_iff_suffix.mpr
      ((List.suffix_append _ _).trans (List.suffix_append _ _))
  unfold backupGlobMatch
  rw [hdata, h1, h2, hlen2]
  decide

/-- Inversion of a successful create_backup call: the dump completed
with exit status zero, the archive step succeeded and yielded the
archive size, the returned record carries the archive name and the
rounded size, the final directory is the cleanup filter of the state
after the archive was added and the dump directory removed, and the
trace records the cleanup pass. -/
theorem create_backup_success_inv (R : Int) (now : DT) (env : CBEnv)
    (fs : List Entry) (f : String) (s : Nat)
    (h : (create_backup R now env fs).result = BackupResult.success f s) :
    ∃ rc stderr bytes,
      env.dump = RunResult.completed rc stderr ∧ rc = 0 ∧
      env.archive = Except.ok bytes ∧
      f = backupArchiveName now ∧ s = sizeCentiMB bytes ∧
      (create_backup R now env fs).fs
        = ((⟨backupArchiveName now, bytes, false⟩ ::
             (if env.dumpDirCreated then ⟨backupBaseName now, 0, true⟩ :: fs
              else fs)).filter
             (fun x => x.name != backupBaseName now)).filter
            (fun e => !(deletesEntry env.cleanupNow R e)) ∧
      Ev.cleanupRun ∈ (create_backup R now env fs).trace := by
  rcases env with ⟨dump, ddc, arch, rm, st, cn⟩
  cases dump with
  | timeout msg => simp [create_backup] at h
  | completed rc stderr =>
    by_cases hrc : rc ≠ 0
    · simp [create_backup, hrc] at h
    · cases arch with
      | error msg => simp [create_backup, hrc] at h
      | ok bytes =>
        cases rm with
        | error msg => simp [create_backup, hrc] at h
        | ok u =>
          cases st with
          | error msg => simp [create_backup, hrc] at h
          | ok v =>
            simp only [create_backup, if_neg hrc] at h ⊢
            obtain ⟨hf, hs⟩ := BackupResult.success.inj h
            refine ⟨rc, stderr, bytes, rfl, by omega, rfl, hf.symm, hs.symm,
              ?_, ?_⟩
            · exact cleanup_fs_eq_filter cn R _
            · simp

/-- C1: every create_backup call returns exactly one of the two record
shapes: on success the archive file name together with its size rounded
to two decimals, on any failure (dump non-zero exit, timeout,
archive/filesystem error) an error message; the operation is total, so
no exception escapes it. -/
theorem create_backup_result_dichotomy (R : Int) (now : DT) (env : CBEnv)
    (fs : List Entry) :
    (∃ s, (create_backup R now env fs).result
        = BackupResult.success (backupArchiveName now) s ∧
        ∃ bytes, env.archive = Except.ok bytes ∧ s = sizeCentiMB bytes)
    ∨ ∃ msg, (create_backup R now env fs).result = BackupResult.failure msg := by
  rcases env with ⟨dump, ddc, arch, rm, st, cn⟩
  cases dump with
  | timeout msg => exact Or.inr ⟨msg, by simp [create_backup]⟩
  | completed rc stderr =>
    by_cases hrc : rc ≠ 0
    · exact Or.inr ⟨stderr, by simp [create_backup, hrc]⟩
    · cases arch with
      | error msg => exact Or.inr ⟨msg, by simp [create_backup, hrc]⟩
      | ok bytes =>
        cases rm with
        | error msg => exact Or.inr ⟨msg, by simp [create_backup, hrc]⟩
        | ok u =>
          cases st with
          | error msg => exact Or.inr ⟨msg, by simp [create_backup, hrc]⟩
          | ok v =>
            exact Or.inl ⟨sizeCentiMB bytes, by simp [create_backup, hrc],
              bytes, rfl, rfl⟩

/-- C2: a file of the backup directory that matches the glob and whose
embedded timestamp parses is deleted by cleanup_old_backups exactly when
the parsed timestamp is strictly older than the cutoff (now minus the
configured retention in days); the same deletion happens through the
cleanup pass of a successful create_backup call. -/
theorem cleanup_deletes_iff_expired :
    (∀ (now R : Int) (fs : List Entry) (e : Entry) (dt : DT),
        e ∈ fs → e.isDir = false → backupGlobMatch e.name = true →
        strptimeTS (tsExtract e.name) = some dt →
        (e ∉ (cleanup_old_backups now R fs).fs
          ↔ epochSeconds dt < now - R * 86400))
    ∧ ∀ (R : Int) (now : DT) (env : CBEnv) (fs : List Entry) (f : String)
        (s : Nat) (e : Entry) (dt : DT),
        (create_backup R now env fs).result = BackupResult.success f s →
        e ∈ fs → e.isDir = false → backupGlobMatch e.name = true →
        strptimeTS (tsExtract e.name) = some dt →
        epochSeconds dt < env.cleanupNow - R * 86400 →
        e ∉ (create_backup R now env fs).fs := by
  constructor
  · intro now R fs e dt hmem hdir hg hp
    rw [cleanup_fs_eq_filter, List.mem_filter]
    simp only [deletesEntry, hg, hp, hdir]
    constructor
    · intro hnot
      by_contra hlt
      exact hnot ⟨hmem, by simp [hlt]⟩
    · intro hlt hin
      have := hin.2
      simp [hlt] at this
  · intro R now env fs f s e dt h hmem hdir hg hp hold
    obtain ⟨rc, stderr, bytes, _, _, _, _, _, hfs, _⟩ :=
      create_backup_success_inv R now env fs f s h
    rw [hfs]
    intro hin
    have hdel : deletesEntry env.cleanupNow R e = true := by
      simp [deletesEntry, hg, hp, hdir, hold]
    have := (List.mem_filter.mp hin).2
    simp [hdel] at this

/-- Witness for C2: with retention seven days and now 2025-10-12
12:00:00 UTC, the archive stamped eight days earlier is removed by a
direct cleanup call and by the cleanup of a successful create_backup
call, and the archive stamped six days earlier is retained. -/
theorem cleanup_deletes_iff_expired_witness :
    ((⟨"backup_20251004_120000.tar.gz", 100, false⟩ : Entry) ∉
      (cleanup_old_backups (epochSeconds ⟨2025, 10, 12, 12, 0, 0⟩) 7
        [⟨"backup_20251004_120000.tar.gz", 100, false⟩,
         ⟨"backup_20251006_120000.tar.gz", 100, false⟩]).fs)
    ∧ ((⟨"backup_20251006_120000.tar.gz", 100, false⟩ : Entry) ∈
      (cleanup_old_backups (epochSeconds ⟨2025, 10, 12, 12, 0, 0⟩) 7
        [⟨"backup_20251004_120000.tar.gz", 100, false⟩,
         ⟨"backup_20251006_120000.tar.gz", 100, false⟩]).fs)
    ∧ ((⟨"backup_20251004_120000.tar.gz", 100, false⟩ : Entry) ∉
      (create_backup 7 ⟨2025, 10, 12, 12, 0, 0⟩
        ⟨RunResult.completed 0 "", true, Except.ok 10485760, Except.ok (),
         Except.ok (), epochSeconds ⟨2025, 10, 12, 12, 0, 0⟩⟩
        [⟨"backup_20251004_120000.tar.gz", 100, false⟩]).fs) := by
  refine ⟨?_, ?_, ?_⟩
  · exact (cleanup_deletes_iff_expired.1 _ 7 _ _ ⟨2025, 10, 4, 12, 0, 0⟩
      (by decide) rfl (by decide) (by decide)).mpr (by decide)
  · exact not_not.mp (fun hc =>
      absurd ((cleanup_deletes_iff_expired.1 _ 7 _ _ ⟨2025, 10, 6, 12, 0, 0⟩
        (by decide) rfl (by decide) (by decide)).mp hc) (by decide))
  · exact cleanup_deletes_iff_expired.2 7 _ _ _
      "backup_20251012_120000.tar.gz" 1000 _ ⟨2025, 10, 4, 12, 0, 0⟩
      (by decide) (by decide) rfl (by decide) (by decide) (by decide)

/-- C7: a file whose extracted timestamp does not parse is silently
skipped by cleanup_old_backups: it stays in place and the entries before
and after it are processed exactly as they would be on their own. -/
theorem cleanup_skips_unparseable (now R : Int) (xs ys : List Entry)
    (e : Entry) (hp : strptimeTS (tsExtract e.name) = none) :
    (cleanup_old_backups now R (xs ++ e :: ys)).fs
      = (cleanup_old_backups now R xs).fs ++
        e :: (cleanup_old_backups now R ys).fs := by
  have hdel : deletesEntry now R e = false := by
    simp [deletesEntry, hp]
  rw [cleanup_fs_eq_filter, cleanup_fs_eq_filter, cleanup_fs_eq_filter,
    List.filter_append, List.filter_cons]
  simp [hdel]

/-- Witness for C7: backup_not-a-date.tar.gz is left untouched and the
files around it are still processed. -/
theorem cleanup_skips_unparseable_witness :
    (cleanup_old_backups 0 7
      ([⟨"backup_20510101_000000.tar.gz", 1, false⟩] ++
        (⟨"backup_not-a-date.tar.gz", 5, false⟩ : Entry) ::
        [⟨"backup_20510102_000000.tar.gz", 2, false⟩])).fs
    = (cleanup_old_backups 0 7 [⟨"backup_20510101_000000.tar.gz", 1, false⟩]).fs ++
      (⟨"backup_not-a-date.tar.gz", 5, false⟩ : Entry) ::
      (cleanup_old_backups 0 7 [⟨"backup_20510102_000000.tar.gz", 2, false⟩]).fs :=
  cleanup_skips_unparseable 0 7 _ _ _ (by decide)

/-- The formatted timestamp has the fixed 14-digit shape. -/
theorem timestampShape_fmtTimestamp (t : DT) :
    timestampShape (fmtTimestamp t).data = true := by
  show timestampShape (pad4 t.year ++ pad2 t.month ++ pad2 t.day ++ ['_'] ++
    pad2 t.hour ++ pad2 t.minute ++ pad2 t.second) = true
  simp [timestampShape, pad4, pad2, isDig_digitChar_mod]

/-- C3 (amended): when the dump tool exits with a non-zero status,
create_backup returns the failure record whose error is exactly the
captured stderr of the tool, and no archive file is created; the error
string is therefore non-empty exactly when the tool wrote to stderr. -/
theorem create_backup_dump_failure (R : Int) (now : DT) (env : CBEnv)
    (fs : List Entry) (rc : Int) (stderr : String)
    (hd : env.dump = RunResult.completed rc stderr) (hrc : rc ≠ 0)
    (hpre : backupArchiveName now ∉ fs.map Entry.name) :
    (create_backup R now env fs).result = BackupResult.failure stderr ∧
    backupArchiveName now ∉ (create_backup R now env fs).fs.map Entry.name ∧
    ∀ n, Ev.archiveCreated n ∉ (create_backup R now env fs).trace := by
  rcases env with ⟨dump, ddc, arch, rm, st, cn⟩
  cases hd
  have hcb : create_backup R now
      ⟨RunResult.completed rc stderr, ddc, arch, rm, st, cn⟩ fs
      = ⟨BackupResult.failure stderr,
         if ddc then ⟨backupBaseName now, 0, true⟩ :: fs else fs,
         [Ev.dumpRun]⟩ := by
    simp [create_backup, if_pos hrc]
  rw [hcb]
  refine ⟨rfl, ?_, by simp⟩
  cases ddc
  · simpa using hpre
  · simp only [if_true, List.map_cons, List.mem_cons]
    rintro (h | h)
    · exact baseName_ne_archiveName now h.symm
    · exact hpre h

/-- Counterexample to C3 as stated: a dump failure whose captured
stderr is the empty string yields a failure record whose error string is
empty, so the error string is not always non-empty. -/
theorem create_backup_dump_failure_cex :
    (create_backup 7 ⟨2025, 10, 12, 12, 0, 0⟩
      ⟨RunResult.completed 1 "", true, Except.ok 0, Except.ok (),
       Except.ok (), 0⟩ []).result = BackupResult.failure "" := by decide

/-- Witness for the amended C3 at a dump exiting with status one and a
non-empty stderr. -/
theorem create_backup_dump_failure_witness :
    (create_backup 7 ⟨2025, 10, 12, 12, 0, 0⟩
      ⟨RunResult.completed 1 "dump error", true, Except.ok 0, Except.ok (),
       Except.ok (), 0⟩ []).result = BackupResult.failure "dump error" ∧
    backupArchiveName ⟨2025, 10, 12, 12, 0, 0⟩ ∉
      (create_backup 7 ⟨2025, 10, 12, 12, 0, 0⟩
        ⟨RunResult.completed 1 "dump error", true, Except.ok 0, Except.ok (),
         Except.ok (), 0⟩ []).fs.map Entry.name ∧
    ∀ n, Ev.archiveCreated n ∉
      (create_backup 7 ⟨2025, 10, 12, 12, 0, 0⟩
        ⟨RunResult.completed 1 "dump error", true, Except.ok 0, Except.ok (),
         Except.ok (), 0⟩ []).trace :=
  create_backup_dump_failure 7 ⟨2025, 10, 12, 12, 0, 0⟩ _ [] 1 "dump error"
    rfl (by decide) (by simp)

/-- C5 (amended): a successful create_backup call returns the success
record whose file name is backup_ followed by a 14-digit timestamp and
.tar.gz, and whose size_mb is the archive byte size over one mebibyte
rounded to two decimals — a value that is zero for sufficiently small
archives, so size_mb is not always strictly positive. -/
theorem create_backup_success_shape (R : Int) (now : DT) (env : CBEnv)
    (fs : List Entry) (f : String) (s : Nat) (hv : now.valid)
    (h : (create_backup R now env fs).result = BackupResult.success f s) :
    (∃ ts : List Char, f.data = "backup_".data ++ ts ++ ".tar.gz".data ∧
        timestampShape ts = true) ∧
    ∃ bytes, env.archive = Except.ok bytes ∧ s = sizeCentiMB bytes := by
  obtain ⟨rc, stderr, bytes, hd, hrc, ha, hf, hs, _, _⟩ :=
    create_backup_success_inv R now env fs f s h
  refine ⟨⟨(fmtTimestamp now).data, ?_, timestampShape_fmtTimestamp now⟩,
    bytes, ha, hs⟩
  subst hf
  simp [backupArchiveName, backupBaseName, String.data_append]

/-- Counterexample to C5 as stated: a successful creation whose archive
is 1000 bytes has size_mb rounded to two decimals equal to zero, so
size_mb is not strictly positive. -/
theorem create_backup_small_archive_cex :
    (create_backup 7 ⟨2025, 10, 12, 12, 0, 0⟩
      ⟨RunResult.completed 0 "", true, Except.ok 1000, Except.ok (),
       Except.ok (), 0⟩ []).result
    = BackupResult.success "backup_20251012_120000.tar.gz" 0 := by decide

/-- Witness for the amended C5 at a 10 MiB archive. -/
theorem create_backup_success_shape_witness :
    (∃ ts : List Char,
        ("backup_20251012_120000.tar.gz" : String).data
          = "backup_".data ++ ts ++ ".tar.gz".data ∧
        timestampShape ts = true) ∧
    ∃ bytes,
      (⟨RunResult.completed 0 "", true, Except.ok 10485760, Except.ok (),
        Except.ok (), 0⟩ : CBEnv).archive = Except.ok bytes ∧
      (1000 : Nat) = sizeCentiMB bytes :=
  create_backup_success_shape 7 ⟨2025, 10, 12, 12, 0, 0⟩ _ []
    "backup_20251012_120000.tar.gz" 1000 (by decide) (by decide)

/-- Counterexample to C8 as stated: an invocation in which the dump
tool fails never reaches the cleanup call, so not every invocation of
create_backup invokes cleanup_old_backups. -/
theorem create_backup_failure_skips_cleanup_cex :
    Ev.cleanupRun ∉
      (create_backup 7 ⟨2025, 10, 12, 12, 0, 0⟩
        ⟨RunResult.completed 1 "boom", true, Except.ok 0, Except.ok (),
         Except.ok (), 0⟩ []).trace := by decide

/-- C8 (amended): every create_backup invocation that returns the
success record has invoked cleanup_old_backups as a side effect; on the
failure paths the cleanup call is never reached. -/
theorem create_backup_success_runs_cleanup (R : Int) (now : DT) (env : CBEnv)
    (fs : List Entry) (f : String) (s : Nat)
    (h : (create_backup R now env fs).result = BackupResult.success f s) :
    Ev.cleanupRun ∈ (create_backup R now env fs).trace := by
  obtain ⟨_, _, _, _, _, _, _, _, _, hm⟩ :=
    create_backup_success_inv R now env fs f s h
  exact hm

/-- Witness for the amended C8 at a successful creation. -/
theorem create_backup_success_runs_cleanup_witness :
    Ev.cleanupRun ∈
      (create_backup 7 ⟨2025, 10, 12, 12, 0, 0⟩
        ⟨RunResult.completed 0 "", true, Except.ok 10485760, Except.ok (),
         Except.ok (), 0⟩ []).trace :=
  create_backup_success_runs_cleanup 7 ⟨2025, 10, 12, 12, 0, 0⟩ _ []
    "backup_20251012_120000.tar.gz" 1000 (by decide)

/-- C9: when the archive step raises after the dump completed, the
exception handler performs no filesystem cleanup: the temporary dump
directory stays in the backup directory and no removal effect occurs on
the failure path. -/
theorem create_backup_archive_failure_leaves_dump_dir (R : Int) (now : DT)
    (env : CBEnv) (fs : List Entry) (stderr msg : String)
    (hd : env.dump = RunResult.completed 0 stderr)
    (ha : env.archive = Except.error msg)
    (hc : env.dumpDirCreated = true) :
    (create_backup R now env fs).result = BackupResult.failure msg ∧
    (⟨backupBaseName now, 0, true⟩ : Entry) ∈ (create_backup R now env fs).fs ∧
    ∀ n, Ev.removedDumpDir n ∉ (create_backup R now env fs).trace := by
  rcases env with ⟨dump, ddc, arch, rm, st, cn⟩
  cases hd
  cases ha
  cases hc
  simp [create_backup]

/-- Witness for C9 at a concrete archive failure. -/
theorem create_backup_archive_failure_leaves_dump_dir_witness :
    (create_backup 7 ⟨2025, 10, 12, 12, 0, 0⟩
      ⟨RunResult.completed 0 "", true, Except.error "disk full", Except.ok (),
       Except.ok (), 0⟩ []).result = BackupResult.failure "disk full" ∧
    (⟨backupBaseName ⟨2025, 10, 12, 12, 0, 0⟩, 0, true⟩ : Entry) ∈
      (create_backup 7 ⟨2025, 10, 12, 12, 0, 0⟩
        ⟨RunResult.completed 0 "", true, Except.error "disk full", Except.ok (),
         Except.ok (), 0⟩ []).fs ∧
    ∀ n, Ev.removedDumpDir n ∉
      (create_backup 7 ⟨2025, 10, 12, 12, 0, 0⟩
        ⟨RunResult.completed 0 "", true, Except.error "disk full", Except.ok (),
         Except.ok (), 0⟩ []).trace :=
  create_backup_archive_failure_leaves_dump_dir 7 ⟨2025, 10, 12, 12, 0, 0⟩ _ []
    "" "disk full" rfl rfl rfl

/-- C4: list_backups returns the records of the entries matching the
glob, sorted by filename in descending order, the empty sequence when
nothing matches; for equal-length timestamps the name order coincides
with timestamp order, so archives stamped T1 less than T2 less than T3
are returned as T3, T2, T1 with their rounded sizes. -/
theorem list_backups_descending (fs : List Entry) :
    List.Sorted (fun a b : BackupInfo => b.file ≤ a.file) (list_backups fs)
    ∧ (list_backups fs).Perm
        ((fs.filter (fun e => backupGlobMatch e.name)).map lbRecord)
    ∧ (fs.filter (fun e => backupGlobMatch e.name) = [] → list_backups fs = [])
    ∧ ∀ (t1 t2 t3 : String) (s1 s2 s3 : Nat),
        t1.length = 15 → t2.length = 15 → t3.length = 15 →
        t1 < t2 → t2 < t3 →
        list_backups
            [⟨mkBackupName t1, s1, false⟩, ⟨mkBackupName t2, s2, false⟩,
             ⟨mkBackupName t3, s3, false⟩]
          = [⟨mkBackupName t3, sizeCentiMB s3⟩, ⟨mkBackupName t2, sizeCentiMB s2⟩,
             ⟨mkBackupName t1, sizeCentiMB s1⟩] := by
  refine ⟨?_, ?_, ?_, ?_⟩
  · simp only [list_backups]
    exact List.Pairwise.map lbRecord (fun a b hab => hab)
      (List.sorted_insertionSort (fun a b : Entry => b.name ≤ a.name) _)
  · simp only [list_backups]
    exact (List.perm_insertionSort _ _).map lbRecord
  · intro h
    simp [list_backups, h]
  · intro t1 t2 t3 s1 s2 s3 hl1 hl2 hl3 h12 h23
    have g1 := globMatch_mkBackupName t1 hl1
    have g2 := globMatch_mkBackupName t2 hl2
    have g3 := globMatch_mkBackupName t3 hl3
    have l12 : mkBackupName t1 < mkBackupName t2 :=
      mkBackupName_lt_of_lt (hl1.trans hl2.symm) h12
    have l23 : mkBackupName t2 < mkBackupName t3 :=
      mkBackupName_lt_of_lt (hl2.trans hl3.symm) h23
    have l13 : mkBackupName t1 < mkBackupName t3 := lt_trans l12 l23
    have n12 : ¬ (mkBackupName t2 ≤ mkBackupName t1) := not_le.mpr l12
    have n13 : ¬ (mkBackupName t3 ≤ mkBackupName t1) := not_le.mpr l13
    have n23 : ¬ (mkBackupName t3 ≤ mkBackupName t2) := not_le.mpr l23
    have n12d : ¬ ((mkBackupName t2).data ≤ (mkBackupName t1).data) :=
      fun h => n12 (String.le_iff_toList_le.mpr h)
    have n13d : ¬ ((mkBackupName t3).data ≤ (mkBackupName t1).data) :=
      fun h => n13 (String.le_iff_toList_le.mpr h)
    have n23d : ¬ ((mkBackupName t3).data ≤ (mkBackupName t2).data) :=
      fun h => n23 (String.le_iff_toList_le.mpr h)
    simp [list_backups, List.filter_cons, g1, g2, g3, List.insertionSort,
      List.orderedInsert, n12, n13, n23, n12d, n13d, n23d, lbRecord]

/-- Witness for C4: the empty directory lists as the empty sequence,
and three concretely stamped archives list most recent first. -/
theorem list_backups_descending_witness :
    list_backups [] = [] ∧
    list_backups
        [⟨mkBackupName "20250101_000000", 100, false⟩,
         ⟨mkBackupName "20250102_000000", 200, false⟩,
         ⟨mkBackupName "20250103_000000", 300, false⟩]
      = [⟨mkBackupName "20250103_000000", sizeCentiMB 300⟩,
         ⟨mkBackupName "20250102_000000", sizeCentiMB 200⟩,
         ⟨mkBackupName "20250101_000000", sizeCentiMB 100⟩] := by
  constructor
  · exact (list_backups_descending []).2.2.1 rfl
  · exact (list_backups_descending []).2.2.2 _ _ _ _ _ _ rfl rfl rfl
      (by rw [String.lt_iff_toList_lt]; decide)
      (by rw [String.lt_iff_toList_lt]; decide)

/-- C6: when MONGO_URL or DB_NAME is absent from the effective
environment, the module body raises before creating or touching any
directory, so no BackupManager operation can run. -/
theorem startup_missing_required_env (env : List (String × String))
    (h : getenv env "MONGO_URL" = none ∨ getenv env "DB_NAME" = none) :
    ∃ msg, startup env = (StartupOutcome.fatal msg, ([] : List StEv)) := by
  have hw : ∀ r, startupWithRetention env r
      = (StartupOutcome.fatal "Missing required env vars: MONGO_URL or DB_NAME",
         ([] : List StEv)) := by
    intro r
    have hf : (isFalsyStrOpt (getenv env "MONGO_URL")
        || isFalsyStrOpt (getenv env "DB_NAME")) = true := by
      rcases h with h | h <;> simp [h, isFalsyStrOpt]
    simp [startupWithRetention, hf]
  cases hb : getenv env "BACKUP_RETENTION_DAYS" with
  | none =>
    exact ⟨"Missing required env vars: MONGO_URL or DB_NAME",
      by simp only [startup, hb]; exact hw 7⟩
  | some s =>
    cases hp : pyIntOfString s with
    | none =>
      exact ⟨"invalid literal for int() with base 10: " ++ s,
        by simp only [startup, hb, hp]⟩
    | some r =>
      exact ⟨"Missing required env vars: MONGO_URL or DB_NAME",
        by simp only [startup, hb, hp]; exact hw r⟩

/-- Witness for C6: the empty environment aborts startup with no
directory effects. -/
theorem startup_missing_required_env_witness :
    ∃ msg, startup [] = (StartupOutcome.fatal msg, ([] : List StEv)) :=
  startup_missing_required_env [] (Or.inl rfl)

/-- C10: a BACKUP_RETENTION_DAYS value that int() cannot convert aborts
the module body before any directory effect or manager operation; when
the variable is unset the retention is exactly seven days. -/
theorem startup_retention_parse :
    (∀ (env : List (String × String)) (s : String),
        getenv env "BACKUP_RETENTION_DAYS" = some s → pyIntOfString s = none →
        ∃ msg, startup env = (StartupOutcome.fatal msg, ([] : List StEv)))
    ∧ ∀ (env : List (String × String)) (cfg : Config) (evs : List StEv),
        getenv env "BACKUP_RETENTION_DAYS" = none →
        startup env = (StartupOutcome.ok cfg, evs) → cfg.retentionDays = 7 := by
  constructor
  · intro env s hb hp
    refine ⟨"invalid literal for int() with base 10: " ++ s, ?_⟩
    simp only [startup, hb, hp]
  · intro env cfg evs hb h
    simp only [startup, hb] at h
    simp only [startupWithRetention] at h
    by_cases hf : (isFalsyStrOpt (getenv env "MONGO_URL")
        || isFalsyStrOpt (getenv env "DB_NAME")) = true
    · rw [if_pos hf] at h
      exact absurd (congrArg Prod.fst h) (by simp)
    · rw [if_neg hf] at h
      have := congrArg Prod.fst h
      simp only at this
      cases this
      rfl

/-- Witness for C10: the value abc aborts startup; with the variable
unset and the required variables present, startup succeeds with a
retention of seven days. -/
theorem startup_retention_parse_witness :
    (∃ msg, startup [("BACKUP_RETENTION_DAYS", "abc")]
        = (StartupOutcome.fatal msg, ([] : List StEv)))
    ∧ Config.retentionDays ⟨7, "mongo", "db"⟩ = 7 := by
  constructor
  · exact startup_retention_parse.1 _ "abc" rfl (by decide)
  · exact startup_retention_parse.2 [("MONGO_URL", "mongo"), ("DB_NAME", "db")]
      ⟨7, "mongo", "db"⟩ [StEv.mkdirBackups, StEv.mkdirLogs] rfl (by decide)

end GOLDERP
